import Mathlib

/-
Verification development for the admission-control (rate-limiting) layer of
the xiaoxuebao backend, a shallow embedding of
`src/backend/app/core/rate_limiter.py`.

Modelling conventions:
- Timestamps (`time.time()` truncated to seconds by the source where relevant)
  are integers (`Int`); Python float token-bucket arithmetic is embedded as
  exact rationals (`Rat`).
- The Redis sorted set used by `RateLimiter._redis_rate_limit` stores one
  member per distinct second (`zadd(key, {str(now): now})` keys the member by
  the string of the integer timestamp, so two inserts in the same second
  collapse to one member); it is embedded as `Finset Int` of scores.
- The per-process fallback (`SlidingWindowCounter.requests`, a `deque` of
  floats appended in arrival order) is embedded as `List Int`.
- `RateLimiter.local_counters : Dict[str, SlidingWindowCounter]` is embedded
  as `String → Option SlidingWindowCounter`.
- All time reads within one call (`time.time()` appearing several times) are
  assumed to land in the same second and are passed as one explicit `now`.
-/

namespace RateLimiterPy

/-- `RateLimitRule` dataclass: `requests` per `window` seconds, optional
`burst`.  The dataclass performs no validation of its fields. -/
structure RateLimitRule where
  requests : Nat
  window : Nat
  burst : Option Nat := none
deriving DecidableEq, Repr

/-- The `info` dict built by `_redis_rate_limit` / `_local_rate_limit`:
`limit`, `remaining`, `reset_time`, `retry_after`. -/
structure RateInfo where
  limit : Nat
  remaining : Nat
  reset_time : Int
  retry_after : Option Nat
deriving DecidableEq, Repr

/-- `RateLimitConfig.DEFAULT_RULES`: the hard-coded scope-default dict. -/
def DEFAULT_RULES (k : String) : Option RateLimitRule :=
  if k = "global" then some ⟨1000, 60, none⟩
  else if k = "per_ip" then some ⟨100, 60, none⟩
  else if k = "per_user" then some ⟨200, 60, none⟩
  else none

/-- `RateLimitConfig.ENDPOINT_RULES`: the hard-coded per-endpoint dict. -/
def ENDPOINT_RULES (path : String) : Option RateLimitRule :=
  if path = "/api/v1/knowledge/search" then some ⟨30, 60, none⟩
  else if path = "/api/v1/auth/login" then some ⟨5, 300, none⟩
  else if path = "/api/v1/auth/register" then some ⟨3, 3600, none⟩
  else none

/-- Access `DEFAULT_RULES[k]`; the source only ever subscripts with keys that
are present, so the `getD` default is dead code. -/
def defaultRuleFor (k : String) : RateLimitRule :=
  (DEFAULT_RULES k).getD ⟨0, 0, none⟩

/-- `TokenBucket`: `capacity`, current `tokens`, `refill_rate` (tokens per
second), `last_refill` timestamp.  Floats are embedded as rationals. -/
structure TokenBucket where
  capacity : Rat
  tokens : Rat
  refill_rate : Rat
  last_refill : Rat

/-- `TokenBucket.__init__(capacity, refill_rate)` at time `now`:
starts full (`tokens = capacity`) with `last_refill = now`. -/
def TokenBucket.init (capacity refill_rate : Rat) (now : Rat) : TokenBucket :=
  ⟨capacity, capacity, refill_rate, now⟩

/-- `TokenBucket.consume(tokens)` at time `now`: lazily refill
(`tokens = min(capacity, tokens + (now - last_refill) * refill_rate)`,
`last_refill = now`), then consume if at least `tokens` are available. -/
def TokenBucket.consume (b : TokenBucket) (now : Rat) (tokens : Rat) :
    Bool × TokenBucket :=
  let refilled := min b.capacity (b.tokens + (now - b.last_refill) * b.refill_rate)
  if tokens ≤ refilled then
    (true, { b with tokens := refilled - tokens, last_refill := now })
  else
    (false, { b with tokens := refilled, last_refill := now })

/-- `SlidingWindowCounter`: window size, max requests, and the deque of
recorded timestamps (front = oldest). -/
structure SlidingWindowCounter where
  window_size : Nat
  max_requests : Nat
  requests : List Int
deriving DecidableEq, Repr

/-- The while-loop prefix removal in `SlidingWindowCounter.is_allowed`:
pop from the front while the front entry is `<= now - window_size`. -/
def SlidingWindowCounter.pruned (c : SlidingWindowCounter) (now : Int) : List Int :=
  c.requests.dropWhile (fun ts => decide (ts ≤ now - (c.window_size : Int)))

/-- `SlidingWindowCounter.is_allowed()` at time `now`: prune expired entries,
reject (without recording) when `len(requests) >= max_requests`, else append
`now` and allow. -/
def SlidingWindowCounter.is_allowed (c : SlidingWindowCounter) (now : Int) :
    Bool × SlidingWindowCounter :=
  let pruned := c.pruned now
  if c.max_requests ≤ pruned.length then
    (false, { c with requests := pruned })
  else
    (true, { c with requests := pruned ++ [now] })

/-- The `RateLimiter.local_counters` dict. -/
def LState : Type := String → Option SlidingWindowCounter

/-- `RateLimiter._local_rate_limit(key, rule)` at time `now`: fetch or create
the counter for `key`, run `is_allowed`, and build the info dict
(`remaining = max(0, rule.requests - len(counter.requests))` measured after
the call, `reset_time = now + rule.window`,
`retry_after = rule.window` only on rejection). -/
def localRateLimit (st : LState) (key : String) (rule : RateLimitRule)
    (now : Int) : (Bool × RateInfo) × LState :=
  let counter := (st key).getD ⟨rule.window, rule.requests, []⟩
  let res := counter.is_allowed now
  let info : RateInfo :=
    { limit := rule.requests
      remaining := rule.requests - res.2.requests.length
      reset_time := now + (rule.window : Int)
      retry_after := if res.1 then none else some rule.window }
  ((res.1, info), fun k => if k = key then some res.2 else st k)

/-- `zremrangebyscore(key, 0, window_start)` in `_redis_rate_limit`:
drop every score in `[0, now - window]`. -/
def redisPrune (s : Finset Int) (rule : RateLimitRule) (now : Int) : Finset Int :=
  s.filter (fun ts => ¬(0 ≤ ts ∧ ts ≤ now - (rule.window : Int)))

/-- `RateLimiter._redis_rate_limit(key, rule)` at time `now` (happy path, no
Redis exception): the pipeline prunes, counts (`zcard`, before the insert),
then unconditionally `zadd`s the member `str(now)` with score `now` — the
insert happens whether or not the request is allowed.  `allowed` iff the
pre-insert count is `< rule.requests`;
`remaining = max(0, rule.requests - count - 1)`;
`reset_time = now + rule.window`; `retry_after = rule.window` on rejection.
The `expire(key, rule.window)` TTL refresh has no effect inside the model's
time horizon and is not represented. -/
def redisRateLimit (s : Finset Int) (rule : RateLimitRule) (now : Int) :
    (Bool × RateInfo) × Finset Int :=
  let pruned := redisPrune s rule now
  let current := pruned.card
  let allowed := decide (current < rule.requests)
  let info : RateInfo :=
    { limit := rule.requests
      remaining := rule.requests - current - 1
      reset_time := now + (rule.window : Int)
      retry_after := if allowed then none else some rule.window }
  ((allowed, info), insert now pruned)

/-- Fold `_redis_rate_limit` over a list of call times on one key,
collecting the allow/reject decisions. -/
def redisSeq (s : Finset Int) (rule : RateLimitRule) :
    List Int → List Bool × Finset Int
  | [] => ([], s)
  | t :: ts =>
    let r := redisRateLimit s rule t
    let rest := redisSeq r.2 rule ts
    (r.1.1 :: rest.1, rest.2)

/-- Fold `_local_rate_limit` over a list of call times on one key,
collecting decisions and info dicts. -/
def localSeq (st : LState) (key : String) (rule : RateLimitRule) :
    List Int → List (Bool × RateInfo) × LState
  | [] => ([], st)
  | t :: ts =>
    let r := localRateLimit st key rule t
    let rest := localSeq r.2 key rule ts
    (r.1 :: rest.1, rest.2)

/-- The parts of a FastAPI `Request` the limiter reads: `request.client.host`
(absent when `request.client` is `None`), `request.url.path`, and
`request.state.user_id` (absent when the auth middleware did not set it). -/
structure Request where
  client_ip : Option String
  path : String
  user_id : Option String

/-- `RateLimiter.get_rate_limit_key(request, rule_type)`. -/
def getRateLimitKey (req : Request) (rule_type : String) : String :=
  if rule_type = "global" then "rate_limit:global"
  else if rule_type = "per_ip" then "rate_limit:ip:" ++ req.client_ip.getD "unknown"
  else if rule_type = "per_user" then "rate_limit:user:" ++ req.user_id.getD "anonymous"
  else if rule_type = "per_endpoint" then "rate_limit:endpoint:" ++ req.path
  else "rate_limit:custom:" ++ rule_type

/-- The global-scope call
`self.is_allowed(global_key, DEFAULT_RULES["global"])` of
`check_rate_limits` / `get_rate_limit_status`, over the local backend. -/
def globalEval (st : LState) (req : Request) (now : Int) :
    (Bool × RateInfo) × LState :=
  localRateLimit st (getRateLimitKey req "global") (defaultRuleFor "global") now

/-- The per-IP call `self.is_allowed(ip_key, DEFAULT_RULES["per_ip"])`. -/
def ipEval (st : LState) (req : Request) (now : Int) :
    (Bool × RateInfo) × LState :=
  localRateLimit st (getRateLimitKey req "per_ip") (defaultRuleFor "per_ip") now

/-- The per-endpoint call `self.is_allowed(endpoint_key, rule)` with the
endpoint rule looked up from `ENDPOINT_RULES`. -/
def endpointEval (st : LState) (req : Request) (now : Int)
    (rule : RateLimitRule) : (Bool × RateInfo) × LState :=
  localRateLimit st (getRateLimitKey req "per_endpoint") rule now

/-- The per-user call `self.is_allowed(user_key, DEFAULT_RULES["per_user"])`. -/
def userEval (st : LState) (req : Request) (now : Int) :
    (Bool × RateInfo) × LState :=
  localRateLimit st (getRateLimitKey req "per_user") (defaultRuleFor "per_user") now

/-- The per-user tail of `RateLimiter.check_rate_limits`: evaluated only when
`request.state` has a `user_id`. -/
def checkUserLimit (st : LState) (req : Request) (now : Int) :
    Option (String × RateInfo) × LState :=
  match req.user_id with
  | some _ =>
    let uRes := userEval st req now
    if uRes.1.1 then (none, uRes.2)
    else (some ("用户请求频率超限", uRes.1.2), uRes.2)
  | none => (none, st)

/-- `RateLimiter.check_rate_limits(request)` over the local backend
(`redis_client is None`, so `is_allowed` dispatches to `_local_rate_limit`):
evaluate global, then per-IP, then the endpoint rule when the path has one,
then per-user when authenticated; return the first rejection (with its
message and info dict) and stop — later scopes are not evaluated. -/
def checkRateLimits (st : LState) (req : Request) (now : Int) :
    Option (String × RateInfo) × LState :=
  let gRes := globalEval st req now
  if gRes.1.1 then
    let ipRes := ipEval gRes.2 req now
    if ipRes.1.1 then
      match ENDPOINT_RULES req.path with
      | some rule =>
        let eRes := endpointEval ipRes.2 req now rule
        if eRes.1.1 then checkUserLimit eRes.2 req now
        else (some ("端点 " ++ req.path ++ " 请求频率超限", eRes.1.2), eRes.2)
      | none => checkUserLimit ipRes.2 req now
    else (some ("IP请求频率超限", ipRes.1.2), ipRes.2)
  else (some ("全局请求频率超限", gRes.1.2), gRes.2)

/-- `RateLimiter.get_rate_limit_status(request)` over the local backend: it
calls `is_allowed` (evaluate-and-record) on the global and per-IP keys and
returns their info dicts, discarding the boolean decisions. -/
def getRateLimitStatus (st : LState) (req : Request) (now : Int) :
    (RateInfo × RateInfo) × LState :=
  let gRes := globalEval st req now
  let ipRes := ipEval gRes.2 req now
  ((gRes.1.2, ipRes.1.2), ipRes.2)

/-- `rate_limit_middleware(request, call_next)`: run `check_rate_limits`; on
rejection short-circuit with the 429 response.  Otherwise let the request
through and call `get_rate_limit_status` to decorate the response with the
global `X-RateLimit-*` headers.  The result's first component is the
rejection (if any); the second is the `(global, ip)` status info pair used
for the headers of a passed-through response. -/
def rateLimitMiddleware (st : LState) (req : Request) (now : Int) :
    (Option (String × RateInfo) × Option (RateInfo × RateInfo)) × LState :=
  let chk := checkRateLimits st req now
  match chk.1 with
  | some resp => ((some resp, none), chk.2)
  | none =>
    let sres := getRateLimitStatus chk.2 req now
    ((none, some sres.1), sres.2)

/-- Fold the middleware over a list of request times, collecting whether each
invocation passed (`true`) or was rejected (`false`). -/
def middlewareSeq (st : LState) (req : Request) : List Int → List Bool × LState
  | [] => ([], st)
  | t :: ts =>
    let r := rateLimitMiddleware st req t
    let rest := middlewareSeq r.2 req ts
    (r.1.1.isNone :: rest.1, rest.2)

/-- C9: `TokenBucket.consume` with one requested token first refills lazily to
`min(capacity, tokens + (now - last_refill) * refill_rate)`, allows and
consumes one token exactly when the refilled balance is at least 1, and sets
`last_refill = now` on every check whether it allowed or rejected (capacity
and refill rate are untouched). -/
theorem token_bucket_consume_one_spec (b : TokenBucket) (now : Rat) :
    (b.consume now 1).2.tokens =
      (if 1 ≤ min b.capacity (b.tokens + (now - b.last_refill) * b.refill_rate)
       then min b.capacity (b.tokens + (now - b.last_refill) * b.refill_rate) - 1
       else min b.capacity (b.tokens + (now - b.last_refill) * b.refill_rate))
    ∧ ((b.consume now 1).1 = true ↔
        1 ≤ min b.capacity (b.tokens + (now - b.last_refill) * b.refill_rate))
    ∧ (b.consume now 1).2.last_refill = now
    ∧ (b.consume now 1).2.capacity = b.capacity
    ∧ (b.consume now 1).2.refill_rate = b.refill_rate := by
  unfold TokenBucket.consume
  by_cases h : (1 : Rat) ≤ min b.capacity (b.tokens + (now - b.last_refill) * b.refill_rate) <;>
    simp [h]

/-- C10 counterexample: a rule with `requests = 0` and `window = 0` is
accepted without any configuration error — the dataclass has no validation —
and the limiter evaluates it normally: the zero rule is stored in
`local_counters` and the call returns an ordinary rejection result instead of
failing at startup. -/
theorem zero_rule_accepted_and_usable :
    (localRateLimit (fun _ => none) "k" ⟨0, 0, none⟩ 5).1 = (false, ⟨0, 0, 5, some 0⟩)
    ∧ (localRateLimit (fun _ => none) "k" ⟨0, 0, none⟩ 5).2 "k" = some ⟨0, 0, []⟩ := by
  decide

/-- C10 amended: the source performs no startup validation (a zero rule is
usable, see the counterexample), but every rule actually shipped in
`DEFAULT_RULES` and `ENDPOINT_RULES` has `requests > 0` and `window > 0`. -/
theorem shipped_rules_positive (k : String) (r : RateLimitRule)
    (h : DEFAULT_RULES k = some r ∨ ENDPOINT_RULES k = some r) :
    0 < r.requests ∧ 0 < r.window := by
  rcases h with h | h <;>
    [unfold DEFAULT_RULES at h; unfold ENDPOINT_RULES at h] <;>
    split_ifs at h <;> cases h <;> decide

/-- Witness for `shipped_rules_positive` at the global default rule. -/
theorem shipped_rules_positive_witness :
    0 < (⟨1000, 60, none⟩ : RateLimitRule).requests
    ∧ 0 < (⟨1000, 60, none⟩ : RateLimitRule).window :=
  shipped_rules_positive "global" ⟨1000, 60, none⟩ (Or.inl (by decide))

/-- C7 counterexample: for the state holding one entry at t=0 under rule
`{max=1, window=60}`, a rejected call at t=5 returns
`reset_time = 65 = now + window` and `retry_after = 60 = window`; the claim
would require `reset_at = 0 + 60 = 60` (oldest remaining entry plus window)
and `retry_after = 60 - (5 - 0) = 55`. -/
theorem reset_retry_formula_counterexample :
    redisPrune {0} ⟨1, 60, none⟩ 5 = ({0} : Finset Int)
    ∧ (redisRateLimit ({0} : Finset Int) ⟨1, 60, none⟩ 5).1.1 = false
    ∧ (redisRateLimit ({0} : Finset Int) ⟨1, 60, none⟩ 5).1.2.reset_time = 65
    ∧ (65 : Int) ≠ 0 + 60
    ∧ (redisRateLimit ({0} : Finset Int) ⟨1, 60, none⟩ 5).1.2.retry_after = some 60
    ∧ (60 : Int) ≠ 60 - (5 - 0) := by
  decide

/-- C7 amended: on both backends every evaluation returns
`reset_time = now + window_seconds` (not oldest-entry + window), and on
rejection `retry_after = window_seconds` (a constant, independent of the
oldest in-window timestamp). -/
theorem reset_time_and_retry_after_formula (s : Finset Int) (st : LState)
    (key : String) (rule : RateLimitRule) (now : Int) :
    (redisRateLimit s rule now).1.2.reset_time = now + (rule.window : Int)
    ∧ (redisRateLimit s rule now).1.2.retry_after =
        (if (redisRateLimit s rule now).1.1 then none else some rule.window)
    ∧ (localRateLimit st key rule now).1.2.reset_time = now + (rule.window : Int)
    ∧ (localRateLimit st key rule now).1.2.retry_after =
        (if (localRateLimit st key rule now).1.1 then none else some rule.window) := by
  refine ⟨rfl, rfl, rfl, rfl⟩

/-- C1 counterexample: with recorded set `{0, 1}` (both still in-window),
rule `{max=2, window=10}` and `now = 5`, the distributed evaluation rejects
but the stored set afterwards is `{0, 1, 5}`, not the pruned set `{0, 1}`:
the rejected attempt was recorded. -/
theorem redis_reject_unchanged_counterexample :
    (redisRateLimit ({0, 1} : Finset Int) ⟨2, 10, none⟩ 5).1.1 = false
    ∧ redisPrune {0, 1} ⟨2, 10, none⟩ 5 = ({0, 1} : Finset Int)
    ∧ (redisRateLimit ({0, 1} : Finset Int) ⟨2, 10, none⟩ 5).2 = ({0, 1, 5} : Finset Int)
    ∧ ({0, 1, 5} : Finset Int) ≠ ({0, 1} : Finset Int) := by
  decide

/-- C1 amended: when the in-window count already reaches `max_requests`, the
distributed evaluation returns `allowed = false` but still records the
current attempt: the stored set becomes `insert now (pruned set)` — the
pipeline performs the `zadd` unconditionally, so rejected attempts do consume
quota (matching the divergence the spec itself documents in §9). -/
theorem redis_reject_always_records (s : Finset Int) (rule : RateLimitRule)
    (now : Int) (h : rule.requests ≤ (redisPrune s rule now).card) :
    (redisRateLimit s rule now).1.1 = false
    ∧ (redisRateLimit s rule now).2 = insert now (redisPrune s rule now) := by
  refine ⟨?_, rfl⟩
  unfold redisRateLimit
  simp [Nat.not_lt.mpr h]

/-- Witness for `redis_reject_always_records` at set `{0, 1}`,
rule `{max=2, window=10}`, `now = 5`. -/
theorem redis_reject_always_records_witness :
    (redisRateLimit ({0, 1} : Finset Int) ⟨2, 10, none⟩ 5).1.1 = false
    ∧ (redisRateLimit ({0, 1} : Finset Int) ⟨2, 10, none⟩ 5).2 =
        insert 5 (redisPrune {0, 1} ⟨2, 10, none⟩ 5) :=
  redis_reject_always_records {0, 1} ⟨2, 10, none⟩ 5 (by decide)

/-- C2: over-admission on the distributed backend for same-second requests.
Under rule `{max=2, window=60}`, three evaluate-and-record operations on one
key all at `t = 100` (empty initial state) are all admitted: the sorted-set
member is `str(now)`, so the same-second insert collapses to one member and
`zcard` stays at 1 < 2 — more than `max_requests` operations are admitted. -/
theorem redis_same_second_over_admission :
    (redisSeq (∅ : Finset Int) ⟨2, 60, none⟩ [100, 100, 100]).1 = [true, true, true]
    ∧ 2 < ((redisSeq (∅ : Finset Int) ⟨2, 60, none⟩ [100, 100, 100]).1.count true) := by
  decide

/-- C8 counterexample: under rule `{max=1, window=10}` with calls at
t = 0, 5, 12 from empty state, the local fallback decides
`[allow, reject, allow]` while the distributed backend decides
`[allow, reject, reject]` (the rejected attempt at t=5 was recorded by Redis
but not locally, so it still blocks the t=12 call there): the two paths are
not sequence-equivalent, and the local path is the more permissive one. -/
theorem fallback_sequence_divergence :
    ((localSeq (fun _ => none) "k" ⟨1, 10, none⟩ [0, 5, 12]).1.map Prod.fst)
      = [true, false, true]
    ∧ (redisSeq (∅ : Finset Int) ⟨1, 10, none⟩ [0, 5, 12]).1 = [true, false, false]
    ∧ ([true, false, true] : List Bool) ≠ [true, false, false] := by
  decide

/-- C6 counterexample: in the spec scenario (rule `{max=3, window=10}`, calls
at t = 0, 1, 2, 3, 11 from empty), the rejected call at t=3 returns
`retry_after = 10` — the full window, not ≈7 — and the call at t=11 returns
`remaining = 1`, not 2 (the t=2 entry is still inside the 10-second
window at t=11). -/
theorem scenario_max3_window10_counterexample :
    ((localSeq (fun _ => none) "rate_limit:ip:1.2.3.4" ⟨3, 10, none⟩
        [0, 1, 2, 3, 11]).1.get? 3) = some (false, ⟨3, 0, 13, some 10⟩)
    ∧ (some (10 : Nat)) ≠ some 7
    ∧ ((localSeq (fun _ => none) "rate_limit:ip:1.2.3.4" ⟨3, 10, none⟩
        [0, 1, 2, 3, 11]).1.get? 4) = some (true, ⟨3, 1, 21, none⟩)
    ∧ (1 : Nat) ≠ 2 := by
  decide

/-- C6 amended: rule `{max=3, window=10}` on one key from empty state: calls
at t = 0, 1, 2 are allowed with `remaining` 2, 1, 0; the call at t=3 is
rejected with `retry_after = 10` (the code returns the whole window, not the
time to the oldest entry's expiry); the call at t=11 is allowed with
`remaining = 1` (entry t=2 is still in-window). -/
theorem scenario_max3_window10 :
    (localSeq (fun _ => none) "rate_limit:ip:1.2.3.4" ⟨3, 10, none⟩
        [0, 1, 2, 3, 11]).1 =
      [(true, ⟨3, 2, 10, none⟩), (true, ⟨3, 1, 11, none⟩), (true, ⟨3, 0, 12, none⟩),
       (false, ⟨3, 0, 13, some 10⟩), (true, ⟨3, 1, 21, none⟩)] := by
  decide

/-- C3: `get_rate_limit_status` is not evaluate-only.  From an empty local
state, a single status call for client 1.2.3.4 at t=0 records one timestamp
in the global counter and one in the per-IP counter (it calls `is_allowed`,
the evaluate-and-record operation, on both keys), so the status endpoint
consumes quota and changes every subsequent remaining/decision. -/
theorem status_call_records_entries :
    ((fun _ => none : LState) "rate_limit:global") = none
    ∧ (getRateLimitStatus (fun _ => none) ⟨some "1.2.3.4", "/", none⟩ 0).2
        "rate_limit:global" = some ⟨60, 1000, [0]⟩
    ∧ (getRateLimitStatus (fun _ => none) ⟨some "1.2.3.4", "/", none⟩ 0).2
        "rate_limit:ip:1.2.3.4" = some ⟨60, 100, [0]⟩ := by
  decide

/-- C8 amended: a single evaluate-and-record call behaves identically on the
two backends — given a counter matching the rule and the same number of
in-window recorded timestamps on both sides, the local fallback returns the
same allow/reject decision and the same `limit`/`remaining`/`reset_time`/
`retry_after` info as the distributed path.  (Sequence-level equivalence
fails, see the counterexample: the backends record different state on
rejection and on same-second inserts, so later decisions diverge.) -/
theorem single_call_backend_equivalence (c : SlidingWindowCounter) (s : Finset Int)
    (key : String) (rule : RateLimitRule) (now : Int)
    (hw : c.window_size = rule.window) (hm : c.max_requests = rule.requests)
    (hc : (c.pruned now).length = (redisPrune s rule now).card) :
    (localRateLimit (fun _ => some c) key rule now).1 = (redisRateLimit s rule now).1 := by
  clear hw
  unfold localRateLimit redisRateLimit SlidingWindowCounter.is_allowed
  by_cases h : rule.requests ≤ (c.pruned now).length
  · have h2 : ¬ ((redisPrune s rule now).card < rule.requests) := by omega
    simp [hm, h, h2, Prod.ext_iff, RateInfo.mk.injEq]
    omega
  · have h2 : (redisPrune s rule now).card < rule.requests := by omega
    simp [hm, h, h2, Prod.ext_iff, RateInfo.mk.injEq]
    omega

/-- Witness for `single_call_backend_equivalence`: counter `[0]` against set
`{0}` under rule `{max=1, window=10}` at `now = 5`. -/
theorem single_call_backend_equivalence_witness :
    (localRateLimit (fun _ => some (⟨10, 1, [0]⟩ : SlidingWindowCounter)) "k"
        ⟨1, 10, none⟩ 5).1
      = (redisRateLimit ({0} : Finset Int) ⟨1, 10, none⟩ 5).1 :=
  single_call_backend_equivalence ⟨10, 1, [0]⟩ {0} "k" ⟨1, 10, none⟩ 5 rfl rfl (by decide)

set_option maxRecDepth 100000 in
/-- C4: after `check_rate_limits` passes, `rate_limit_middleware` invokes
`get_rate_limit_status` before returning (first conjunct); that status call
is a second evaluate-and-record — it appends `now` to the global counter
whenever that counter still has headroom (second conjunct); concretely, one
admitted request from empty state leaves two entries in the global counter
and two in the per-IP counter (third conjunct); hence with the configured
per-IP limit of 100, middleware invocations at t = 0..50 from empty state
admit exactly the first 50 and reject the 51st — the effective per-IP
admission threshold is half the configured `max_requests` (fourth
conjunct). -/
theorem middleware_status_double_records :
    (∀ (st : LState) (req : Request) (now : Int),
      (checkRateLimits st req now).1 = none →
      rateLimitMiddleware st req now =
        ((none, some (getRateLimitStatus (checkRateLimits st req now).2 req now).1),
         (getRateLimitStatus (checkRateLimits st req now).2 req now).2))
    ∧ (∀ (st : LState) (req : Request) (now : Int) (c : SlidingWindowCounter),
        st (getRateLimitKey req "global") = some c →
        (c.pruned now).length < c.max_requests →
        getRateLimitKey req "per_ip" ≠ getRateLimitKey req "global" →
        (getRateLimitStatus st req now).2 (getRateLimitKey req "global")
          = some { c with requests := c.pruned now ++ [now] })
    ∧ ((rateLimitMiddleware (fun _ => none) ⟨some "1.2.3.4", "/", none⟩ 0).2
          "rate_limit:global" = some ⟨60, 1000, [0, 0]⟩
        ∧ (rateLimitMiddleware (fun _ => none) ⟨some "1.2.3.4", "/", none⟩ 0).2
          "rate_limit:ip:1.2.3.4" = some ⟨60, 100, [0, 0]⟩)
    ∧ (middlewareSeq (fun _ => none) ⟨some "1.2.3.4", "/", none⟩
        ((List.range 51).map Int.ofNat)).1 = List.replicate 50 true ++ [false] := by
  refine ⟨?_, ?_, ?_, ?_⟩
  · intro st req now h
    simp [rateLimitMiddleware, h]
  · intro st req now c hc hlen hne
    unfold getRateLimitStatus ipEval globalEval localRateLimit
    unfold SlidingWindowCounter.is_allowed
    simp [hc, Nat.not_le.mpr hlen, hne, Ne.symm hne]
  · exact ⟨by decide, by decide⟩
  · decide

/-- Witness for `middleware_status_double_records`: a concrete admitted
request from empty state, and a concrete status call that appends `now = 3`
to a global counter holding `[3]`. -/
theorem middleware_status_double_records_witness :
    rateLimitMiddleware (fun _ => none) ⟨some "1.2.3.4", "/", none⟩ 0 =
      ((none, some (getRateLimitStatus (checkRateLimits (fun _ => none)
          ⟨some "1.2.3.4", "/", none⟩ 0).2 ⟨some "1.2.3.4", "/", none⟩ 0).1),
       (getRateLimitStatus (checkRateLimits (fun _ => none)
          ⟨some "1.2.3.4", "/", none⟩ 0).2 ⟨some "1.2.3.4", "/", none⟩ 0).2)
    ∧ (getRateLimitStatus
        (fun k => if k = "rate_limit:global" then some ⟨60, 1000, [3]⟩ else none)
        ⟨some "1.2.3.4", "/", none⟩ 3).2 "rate_limit:global"
      = some { (⟨60, 1000, [3]⟩ : SlidingWindowCounter) with
          requests := (⟨60, 1000, [3]⟩ : SlidingWindowCounter).pruned 3 ++ [3] } :=
  ⟨middleware_status_double_records.1 (fun _ => none) ⟨some "1.2.3.4", "/", none⟩ 0
      (by decide),
   middleware_status_double_records.2.1
      (fun k => if k = "rate_limit:global" then some ⟨60, 1000, [3]⟩ else none)
      ⟨some "1.2.3.4", "/", none⟩ 3 ⟨60, 1000, [3]⟩ (by decide) (by decide) (by decide)⟩

/-- C5: `check_rate_limits` evaluates Global first, then per-IP, then
per-endpoint (only when the path has an endpoint rule), then per-user (only
when authenticated), failing fast: (1) if the global evaluation rejects, its
rejection is returned and no other counter is touched; (2) if global allows
and per-IP rejects, the per-IP rejection is returned, the global recording
is kept (no rollback) and no later counter is touched; (3) with no endpoint
rule and no authenticated user, passing global and per-IP yields admission
with exactly those two evaluations applied; (4) with an endpoint rule and an
authenticated user, the per-user scope is evaluated last and its rejection
is returned after the first three scopes allowed. -/
theorem check_rate_limits_order_and_fail_fast :
    (∀ (st : LState) (req : Request) (now : Int),
      (globalEval st req now).1.1 = false →
      checkRateLimits st req now =
        (some ("全局请求频率超限", (globalEval st req now).1.2), (globalEval st req now).2)
      ∧ ∀ k, k ≠ getRateLimitKey req "global" → (checkRateLimits st req now).2 k = st k)
    ∧ (∀ (st : LState) (req : Request) (now : Int),
      (globalEval st req now).1.1 = true →
      (ipEval (globalEval st req now).2 req now).1.1 = false →
      checkRateLimits st req now =
        (some ("IP请求频率超限", (ipEval (globalEval st req now).2 req now).1.2),
         (ipEval (globalEval st req now).2 req now).2)
      ∧ (getRateLimitKey req "per_ip" ≠ getRateLimitKey req "global" →
          (checkRateLimits st req now).2 (getRateLimitKey req "global")
            = (globalEval st req now).2 (getRateLimitKey req "global"))
      ∧ ∀ k, k ≠ getRateLimitKey req "global" → k ≠ getRateLimitKey req "per_ip" →
          (checkRateLimits st req now).2 k = st k)
    ∧ (∀ (st : LState) (req : Request) (now : Int),
      ENDPOINT_RULES req.path = none → req.user_id = none →
      (globalEval st req now).1.1 = true →
      (ipEval (globalEval st req now).2 req now).1.1 = true →
      checkRateLimits st req now = (none, (ipEval (globalEval st req now).2 req now).2))
    ∧ (∀ (st : LState) (req : Request) (now : Int) (rule : RateLimitRule) (u : String),
      ENDPOINT_RULES req.path = some rule → req.user_id = some u →
      (globalEval st req now).1.1 = true →
      (ipEval (globalEval st req now).2 req now).1.1 = true →
      (endpointEval (ipEval (globalEval st req now).2 req now).2 req now rule).1.1 = true →
      (userEval (endpointEval (ipEval (globalEval st req now).2 req now).2
          req now rule).2 req now).1.1 = false →
      checkRateLimits st req now =
        (some ("用户请求频率超限",
          (userEval (endpointEval (ipEval (globalEval st req now).2 req now).2
            req now rule).2 req now).1.2),
         (userEval (endpointEval (ipEval (globalEval st req now).2 req now).2
            req now rule).2 req now).2)) := by
  refine ⟨?_, ?_, ?_, ?_⟩
  · intro st req now h
    have hres : checkRateLimits st req now =
        (some ("全局请求频率超限", (globalEval st req now).1.2), (globalEval st req now).2) := by
      simp [checkRateLimits, h]
    refine ⟨hres, ?_⟩
    intro k hk
    rw [hres]
    simp only [globalEval, localRateLimit]
    simp [hk]
  · intro st req now h1 h2
    have hres : checkRateLimits st req now =
        (some ("IP请求频率超限", (ipEval (globalEval st req now).2 req now).1.2),
         (ipEval (globalEval st req now).2 req now).2) := by
      simp [checkRateLimits, h1, h2]
    refine ⟨hres, ?_, ?_⟩
    · intro hne
      rw [hres]
      simp only [ipEval, localRateLimit]
      simp [Ne.symm hne]
    · intro k hkg hki
      rw [hres]
      simp only [ipEval, localRateLimit]
      simp only [globalEval, localRateLimit]
      simp [hkg, hki]
  · intro st req now he hu h1 h2
    simp [checkRateLimits, h1, h2, he, checkUserLimit, hu]
  · intro st req now rule u he hu h1 h2 h3 h4
    simp [checkRateLimits, h1, h2, he, h3, checkUserLimit, hu, h4]

/-- Witness for `check_rate_limits_order_and_fail_fast`: a concrete request
whose global counter (capacity 1, already holding one in-window entry)
rejects, so the global rejection is returned. -/
theorem check_rate_limits_order_and_fail_fast_witness :
    checkRateLimits
        (fun k => if k = "rate_limit:global" then some ⟨60, 1, [0]⟩ else none)
        ⟨some "1.2.3.4", "/", none⟩ 5 =
      (some ("全局请求频率超限",
        (globalEval (fun k => if k = "rate_limit:global" then some ⟨60, 1, [0]⟩ else none)
          ⟨some "1.2.3.4", "/", none⟩ 5).1.2),
       (globalEval (fun k => if k = "rate_limit:global" then some ⟨60, 1, [0]⟩ else none)
          ⟨some "1.2.3.4", "/", none⟩ 5).2) :=
  (check_rate_limits_order_and_fail_fast.1
    (fun k => if k = "rate_limit:global" then some ⟨60, 1, [0]⟩ else none)
    ⟨some "1.2.3.4", "/", none⟩ 5 (by decide)).1

end RateLimiterPy
